import Mathlib

/-!
# janstoon/abzar: the wire helpers of `kareless/std` and the HTTP middleware stack

A shallow embedding of `kareless/std/wire.go` and `handywares/http.go`.

* A Go byte slice is `GoBytes`: `none` is the nil slice, `some bs` a non-nil
  slice holding the bytes `bs`.
* A Go result pair `(x, err)` is a Lean pair whose second component is
  `none` for a nil error.
* Receivers that the Go code mutates through a pointer (`*HttpMiddlewareStack`,
  `*cors.Options`, `http.ResponseWriter`) are passed and returned explicitly.
* `encoding/json` is library code: its two functions are a parameter
  (`JsonPackage`) of everything stated about `wire.go`.
* `http.ResponseWriter` is an interface (`http.ResponseWriter W V`);
  `http.Response` is the writer of net/http's server.
* A panic is an outcome of a call: a handler and a method of the writer
  return the writer's state together with an `http.Outcome`.
-/

/-- A Go value of type `[]byte`; `none` stands for the nil slice. -/
abbrev GoBytes := Option (List (Fin 256))

/-! ## Package `kareless`: the declarations `wire.go` builds on -/

namespace kareless

/-- Modelled from the spec: the declaration of `kareless.Route` is not part of
the two source files. The spec gives it as the value object `{Medium, Address}`
and `wire.go` fills exactly these two fields, `Medium` from an `int` and
`Address` from a `string`. -/
structure Route where
  Medium : Int
  Address : String
deriving DecidableEq, Repr

/-- Modelled from the spec: `kareless.Router`, the capability
`address (string) → Route`; `RouterFunc` adapts a plain function to it. -/
abbrev Router := String → Route

/-- Modelled from the spec: `kareless.Marshaler`, the capability
`payload → bytes`; `wire.go` converts a `func(any) []byte` to it. -/
abbrev Marshaler (P : Type) := P → GoBytes

/-- Modelled from the spec: `kareless.Unmarshaler`, the capability
`bytes → (payload, error)`: decoding either fails with an error or yields the
decoded payload. -/
abbrev Unmarshaler (P E : Type) := GoBytes → Except E P

/-- Modelled from the spec: `kareless.Encapsulator[M]`, the capability
`(Route, bytes) → Message`. -/
abbrev Encapsulator (M : Type) := Route → GoBytes → M

/-- Modelled from the spec: `kareless.Decapsulator[M]`, the capability
`Message → (bytes, error)`, as the Go pair. -/
abbrev Decapsulator (M E : Type) := M → GoBytes × Option E

/-- Modelled from the spec: the aggregate `kareless.Muldem[M]`; its declaration
is not part of the two source files, its five fields are the ones `NewMuldem`
fills. `P` is the payload type (Go `any`), `E` the type of errors. -/
structure Muldem (M P E : Type) where
  Router : Router
  Marshaler : Marshaler P
  Unmarshaler : Unmarshaler P E
  Encapsulator : Encapsulator M
  Decapsulator : Decapsulator M E

/-- Modelled from the spec: `Muldem.Multiplex` is not part of the two source
files. Section 4.4: `route = Router.Resolve(address)`;
`bytes = Marshaler.Marshal(payload)`;
`message = Encapsulator.Encapsulate(route, bytes)`; returns `message`. -/
def Muldem.Multiplex {M P E : Type} (m : Muldem M P E) (address : String) (payload : P) : M :=
  let route := m.Router address
  let bytes := m.Marshaler payload
  m.Encapsulator route bytes

/-- Modelled from the spec: `Muldem.Demultiplex` is not part of the two source
files. Section 4.4: `bytes, err = Decapsulator.Decapsulate(message)`; if
`err != nil` return it; `payload, err = Unmarshaler.Unmarshal(bytes)`. -/
def Muldem.Demultiplex {M P E : Type} (m : Muldem M P E) (message : M) : Except E P :=
  match m.Decapsulator message with
  | (_, some err) => Except.error err
  | (bytes, none) => m.Unmarshaler bytes

end kareless

/-! ## Package `encoding/json`, as far as `wire.go` calls it -/

/-- The two functions of Go's `encoding/json` that `wire.go` uses, over a
payload type `P` (Go `any`) and an error type `E`. `Marshal` returns the Go pair
`([]byte, error)`; `Unmarshal` decodes into a fresh destination and either
fails or yields the decoded payload. Both are library code: every statement
about `wire.go` below holds for all such functions. -/
structure JsonPackage (P E : Type) where
  Marshal : P → GoBytes × Option E
  Unmarshal : GoBytes → Except E P

/-- The contract of `json.Marshal` in encoding/json: with an error the byte
slice is nil; without an error it holds at least one byte, as a JSON text is
never empty. -/
def JsonPackage.MarshalContract {P E : Type} (json : JsonPackage P E) : Prop :=
  ∀ p : P, ((json.Marshal p).2 ≠ none → (json.Marshal p).1 = none) ∧
    ((json.Marshal p).2 = none → ∃ b bs, (json.Marshal p).1 = some (b :: bs))

/-- Three Go values as payloads for concrete runs: the channel
`make(chan int)` and the float `math.Inf(1)`, which `json.Marshal` rejects, and
the untyped `nil`, which it encodes as `null`. -/
inductive SampleValue where
  | chanInt
  | posInf
  | nilValue
deriving DecidableEq, Repr

/-- What encoding/json does on the three sample values. `Marshal` fails on the
channel and on the infinite float with the nil slice and its error message,
and gives the four bytes of `null` for `nil`. `Unmarshal` fails on no bytes,
decodes `null` to `nil`, and reports every other input, which lies outside
the sample, as an error. -/
def sampleJson : JsonPackage SampleValue String :=
  { Marshal := fun p =>
      match p with
      | SampleValue.chanInt => (none, some "json: unsupported type: chan int")
      | SampleValue.posInf => (none, some "json: unsupported value: +Inf")
      | SampleValue.nilValue => (some [110, 117, 108, 108], none)
    Unmarshal := fun bytes =>
      match bytes with
      | none => Except.error "unexpected end of JSON input"
      | some [] => Except.error "unexpected end of JSON input"
      | some [110, 117, 108, 108] => Except.ok SampleValue.nilValue
      | some _ => Except.error "outside the sample" }

/-! ## `kareless/std/wire.go` -/

namespace std

open kareless

/-- The router of `IdentityRouter(medium)`:
`func(addr string) Route { return Route{Medium: medium, Address: addr} }`. -/
def IdentityRouter (medium : Int) : Router :=
  fun addr => { Medium := medium, Address := addr }

/-- The marshaler of `wire.go`: `bb, _ := json.Marshal(payload); return bb`.
The error of `json.Marshal` is assigned to the blank identifier. -/
def JsonMarshaler {P E : Type} (json : JsonPackage P E) : Marshaler P :=
  fun payload =>
    let (bb, _) := json.Marshal payload
    bb

/-- The unmarshaler of `wire.go`: `kareless.UnmarshalerFunc(json.Unmarshal)`,
the library function itself. -/
def JsonUnmarshaler {P E : Type} (json : JsonPackage P E) : Unmarshaler P E :=
  json.Unmarshal

/-- The encapsulator of `NoopEncapsulator[M]()`:
`func(route Route, data []byte) (m M) { return m }`. The named result `m` is
never assigned, so it is the zero value of `M`, here `default`. -/
def NoopEncapsulator (M : Type) [Inhabited M] : Encapsulator M :=
  fun _route _data => default

/-- The decapsulator of `NoopDecapsulator[M]()`:
`func(msg M) ([]byte, error) { return nil, nil }`. -/
def NoopDecapsulator (M E : Type) : Decapsulator M E :=
  fun _msg => (none, none)

/-- The aggregate of `NewMuldem[M]()`: identity router with medium 0, the JSON
marshaler and unmarshaler, the no-op encapsulator and decapsulator. -/
def NewMuldem (M : Type) [Inhabited M] {P E : Type} (json : JsonPackage P E) : Muldem M P E :=
  { Router := IdentityRouter 0
    Marshaler := JsonMarshaler json
    Unmarshaler := JsonUnmarshaler json
    Encapsulator := NoopEncapsulator M
    Decapsulator := NoopDecapsulator M E }

end std

/-! ## Package `net/http`, as far as `http.go` calls it -/

namespace http

/-- The constant `http.StatusOK`. -/
def StatusOK : Int := 200

/-- The constant `http.StatusInternalServerError`. -/
def StatusInternalServerError : Int := 500

/-- The constant `http.StatusSwitchingProtocols`. -/
def StatusSwitchingProtocols : Int := 101

/-- How a call ends: it returns, or it panics. `panicked r` carries what a
deferred `recover()` gets from the panic: `some v` for a panic value `v` that
is not nil, `none` for a nil one (`panic(nil)` where the runtime keeps the nil:
before Go 1.21, or with `panicnil=1`). -/
inductive Outcome (V : Type) where
  | returned
  | panicked (r : Option V)
deriving DecidableEq, Repr

/-- The interface `http.ResponseWriter` over the type `W` of a writer's state
and the type `V` of panic values: the one method that `http.go` calls. A call
takes the state before and gives the state after, and may itself panic. -/
class ResponseWriter (W V : Type) where
  WriteHeader : W → Int → W × Outcome V

/-- A value of type `http.Handler`, by what a call `ServeHTTP(rw, req)` leaves
behind: the state of the response writer and how the call ended. -/
abbrev Handler (W Req V : Type) := W → Req → W × Outcome V

/-- The response of net/http's server as far as `WriteHeader` reads and
writes it: `hijacked` says that the connection was taken over, `wroteHeader`
that the final status line has been written, `status` is its code, `body` the
bytes written after it. -/
structure Response where
  hijacked : Bool
  wroteHeader : Bool
  status : Int
  body : List (Fin 256)
deriving DecidableEq, Repr

/-- The method `WriteHeader` of the server's response, in the order of its
checks: on a hijacked connection and after the status line has been written
the call changes nothing; a code below 100 or above 999 panics with a
message; an informational code (1xx other than 101) is sent on its own and
leaves the final status open; any other code becomes the final status. -/
def Response.WriteHeader (w : Response) (code : Int) : Response × Outcome String :=
  if w.hijacked then (w, Outcome.returned)
  else if w.wroteHeader then (w, Outcome.returned)
  else if code < 100 ∨ code > 999 then
    (w, Outcome.panicked (some ("invalid WriteHeader code " ++ toString code)))
  else if 100 ≤ code ∧ code ≤ 199 ∧ code ≠ StatusSwitchingProtocols then (w, Outcome.returned)
  else ({ w with wroteHeader := true, status := code }, Outcome.returned)

instance : ResponseWriter Response String where
  WriteHeader := Response.WriteHeader

/-- The nil `http.ResponseWriter`: calling a method on it is a nil
dereference, which panics with a run-time error. -/
inductive NilResponseWriter where
  | nil
deriving DecidableEq, Repr

instance : ResponseWriter NilResponseWriter String where
  WriteHeader := fun w _ =>
    (w, Outcome.panicked (some "runtime error: invalid memory address or nil pointer dereference"))

/-- The response of the server before the handler has written anything. -/
def Response.fresh : Response :=
  { hijacked := false, wroteHeader := false, status := 0, body := [] }

end http

/-! ## Package `rs/cors`, as far as `http.go` touches it -/

namespace cors

/-- The struct `cors.Options`: the four fields that `http.go` assigns, and
`rest` for all its other fields together (their declaration belongs to the
library). -/
structure Options (R : Type) where
  AllowedOrigins : List String
  AllowedMethods : List String
  AllowedHeaders : List String
  Debug : Bool
  rest : R

end cors

/-! ## `handywares/http.go` -/

namespace handywares

/-- The type `middleware.Builder`: `func(http.Handler) http.Handler`, over the
type `H` of handlers. -/
abbrev Builder (H : Type) := H → H

/-- Modelled from the spec: `middleware.PassthroughBuilder` comes from
go-openapi and is not part of the source files; the spec says that an empty
chain behaves as a transparent pass-through, so it returns its handler. -/
def PassthroughBuilder {H : Type} : Builder H :=
  fun handler => handler

/-- The type `HttpMiddlewareStack`: a builder value that may be nil (`none`),
which it is before the first push. -/
abbrev HttpMiddlewareStack (H : Type) := Option (Builder H)

/-- The method `Push`: `current := *stk`; a nil `current` becomes
`PassthroughBuilder`; `*stk = func(next) { return current(mw(next)) }`. The
result is the new value of `*stk`. -/
def Push {H : Type} (stk : HttpMiddlewareStack H) (mw : Builder H) : HttpMiddlewareStack H :=
  let current : Builder H :=
    match stk with
    | none => PassthroughBuilder
    | some b => b
  some (fun next => current (mw next))

/-- The method `NotNil`: `PassthroughBuilder` for a nil stack, the stack's
builder otherwise. -/
def NotNil {H : Type} (stk : HttpMiddlewareStack H) : Builder H :=
  match stk with
  | none => PassthroughBuilder
  | some b => b

/-- The decorator that `PushPanicRecover` pushes. The handler it returns runs
`next.ServeHTTP(rw, req)` under a deferred function. That function calls
`recover()`, which ends a panic of `next` and returns its value `r`; when
`r != nil` it calls `rw.WriteHeader(500)`. When `next` returned, or panicked
with a nil value, the handler returns. When `rw.WriteHeader(500)` runs, the
handler ends as that call ends: a panic of it is not recovered by anything
here and leaves the handler. -/
def panicRecover {W Req V : Type} [http.ResponseWriter W V] : Builder (http.Handler W Req V) :=
  fun next => fun rw req =>
    let (rw1, out) := next rw req
    match out with
    | http.Outcome.returned => (rw1, http.Outcome.returned)
    | http.Outcome.panicked none => (rw1, http.Outcome.returned)
    | http.Outcome.panicked (some _) =>
      http.ResponseWriter.WriteHeader rw1 http.StatusInternalServerError

/-- The method `PushPanicRecover`; its options are not read. -/
def PushPanicRecover {W Req V : Type} [http.ResponseWriter W V]
    (stk : HttpMiddlewareStack (http.Handler W Req V)) : HttpMiddlewareStack (http.Handler W Req V) :=
  Push stk panicRecover

/-- The type `CorsHttpMiddlewareOpt`, an in-place option on `cors.Options`:
`func(s *cors.Options)`, as the value of `*s` after the call. -/
abbrev CorsHttpMiddlewareOpt (R : Type) := cors.Options R → cors.Options R

/-- The option `CorsAllowOrigins(origins...)`: `s.AllowedOrigins = origins`. -/
def CorsAllowOrigins {R : Type} (origins : List String) : CorsHttpMiddlewareOpt R :=
  fun s => { s with AllowedOrigins := origins }

/-- The option `CorsAllowMethods(methods...)`: `s.AllowedMethods = methods`. -/
def CorsAllowMethods {R : Type} (methods : List String) : CorsHttpMiddlewareOpt R :=
  fun s => { s with AllowedMethods := methods }

/-- The option `CorsAllowHeaders(headers...)`: `s.AllowedHeaders = headers`. -/
def CorsAllowHeaders {R : Type} (headers : List String) : CorsHttpMiddlewareOpt R :=
  fun s => { s with AllowedHeaders := headers }

/-- The option `CorsDebug(debug)`: `s.Debug = debug`. -/
def CorsDebug {R : Type} (debug : Bool) : CorsHttpMiddlewareOpt R :=
  fun s => { s with Debug := debug }

end handywares

/-! ## Helper lemmas -/

namespace handywares

/-- One push in front of a chain: the pushed decorator is applied first, the
stack's own builder around it. -/
theorem NotNil_Push {H : Type} (stk : HttpMiddlewareStack H) (mw : Builder H) (next : H) :
    NotNil (Push stk mw) next = NotNil stk (mw next) := by
  cases stk <;> rfl

/-- Pushing a list of decorators onto any stack: the stack's builder is
applied to the right fold of the pushed decorators. -/
theorem NotNil_foldl_Push {H : Type} (ds : List (Builder H)) (stk : HttpMiddlewareStack H) (h : H) :
    NotNil (ds.foldl Push stk) h = NotNil stk (ds.foldr (fun d inner => d inner) h) := by
  induction ds generalizing stk with
  | nil => rfl
  | cons d ds ih =>
    simp only [List.foldl_cons, List.foldr_cons]
    rw [ih (Push stk d), NotNil_Push]

/-- A stack that is not nil stays not nil under pushes, and `NotNil` is its
builder. -/
theorem foldl_Push_eq_some {H : Type} (ds : List (Builder H)) (stk : HttpMiddlewareStack H)
    (hs : stk ≠ none) : ds.foldl Push stk = some (NotNil (ds.foldl Push stk)) := by
  induction ds generalizing stk with
  | nil =>
    cases stk with
    | none => exact absurd rfl hs
    | some b => rfl
  | cons d ds ih =>
    simp only [List.foldl_cons]
    exact ih (Push stk d) (by simp [Push])

/-- What the handler built by `PushPanicRecover` on the nil stack does, by how
the inner handler ends. -/
theorem NotNil_PushPanicRecover {W Req V : Type} [http.ResponseWriter W V]
    (next : http.Handler W Req V) (rw : W) (req : Req) :
    NotNil (PushPanicRecover none) next rw req =
      match (next rw req).2 with
      | http.Outcome.returned => ((next rw req).1, http.Outcome.returned)
      | http.Outcome.panicked none => ((next rw req).1, http.Outcome.returned)
      | http.Outcome.panicked (some _) =>
        http.ResponseWriter.WriteHeader (next rw req).1 http.StatusInternalServerError := by
  show panicRecover next rw req = _
  unfold panicRecover
  rcases next rw req with ⟨w1, _ | (_ | v)⟩ <;> rfl

end handywares

namespace http

/-- The server's `WriteHeader` returns for the code 500 on every response. -/
theorem Response.WriteHeader_500_returns (w : Response) :
    (w.WriteHeader StatusInternalServerError).2 = Outcome.returned := by
  unfold Response.WriteHeader
  split
  · rfl
  · split
    · rfl
    · simp [StatusInternalServerError, StatusSwitchingProtocols]

end http

/-! ## The claims -/

namespace std

open kareless

/-- C2: for every integer medium `m` and every string `a`, the router of
`IdentityRouter(m)` resolves `a` to `Route{Medium: m, Address: a}`; the empty
address is carried through like any other. -/
theorem IdentityRouter_resolve (m : Int) (a : String) :
    IdentityRouter m a = { Medium := m, Address := a } ∧
    (IdentityRouter m a).Medium = m ∧ (IdentityRouter m a).Address = a ∧
    IdentityRouter m "" = { Medium := m, Address := "" } :=
  ⟨rfl, rfl, rfl, rfl⟩

/-- C5: for every message type `M`, every route and every byte slice, the
encapsulator of `NoopEncapsulator[M]()` returns the zero value of `M`; so two
calls give the same message whatever their routes and bytes are. -/
theorem NoopEncapsulator_zero (M : Type) [Inhabited M] (route route1 : Route) (data data1 : GoBytes) :
    NoopEncapsulator M route data = default ∧
    NoopEncapsulator M route data = NoopEncapsulator M route1 data1 :=
  ⟨rfl, rfl⟩

/-- C6: for every message type `M` and every message, the decapsulator of
`NoopDecapsulator[M]()` returns `(nil, nil)`: the nil slice and the nil
error. -/
theorem NoopDecapsulator_nil (M E : Type) (msg : M) :
    NoopDecapsulator M E msg = (none, none) ∧
    (NoopDecapsulator M E msg).1 = none ∧ (NoopDecapsulator M E msg).2 = none :=
  ⟨rfl, rfl, rfl⟩

/-- C4 (counterexample): `json.Marshal` fails on the channel and on the
infinite float with two different errors, and `JsonMarshaler` returns the nil
slice for both; no function of its result gives the caller the error that
`json.Marshal` returned. -/
theorem JsonMarshaler_error_not_surfaced :
    (sampleJson.Marshal SampleValue.chanInt).2 = some "json: unsupported type: chan int" ∧
    (sampleJson.Marshal SampleValue.posInf).2 = some "json: unsupported value: +Inf" ∧
    JsonMarshaler sampleJson SampleValue.chanInt = none ∧
    JsonMarshaler sampleJson SampleValue.posInf = none ∧
    ¬ ∃ f : GoBytes → Option String,
      ∀ p : SampleValue, f (JsonMarshaler sampleJson p) = (sampleJson.Marshal p).2 := by
  refine ⟨rfl, rfl, rfl, rfl, ?_⟩
  rintro ⟨f, hf⟩
  have h1 := hf SampleValue.chanInt
  have h2 := hf SampleValue.posInf
  have h3 : f none = some "json: unsupported type: chan int" := h1
  have h4 : f none = some "json: unsupported value: +Inf" := h2
  rw [h3] at h4
  exact absurd h4 (by decide)

/-- C4 (amended): under the contract of `json.Marshal`, for every payload on
which `json.Marshal` returns an error, `JsonMarshaler` returns the byte slice
of `json.Marshal` only, which is nil; every failed call gives that same
result whatever its error is, and no successful call does, so the nil slice is
the one sign of the failure that the caller gets. -/
theorem JsonMarshaler_failure_is_nil_slice {P E : Type} (json : JsonPackage P E)
    (hc : json.MarshalContract) (payload : P) (err : E) (hfail : (json.Marshal payload).2 = some err) :
    JsonMarshaler json payload = (json.Marshal payload).1 ∧
    JsonMarshaler json payload = none ∧
    (∀ (q : P) (err1 : E), (json.Marshal q).2 = some err1 →
      JsonMarshaler json q = JsonMarshaler json payload) ∧
    (∀ q : P, (json.Marshal q).2 = none → JsonMarshaler json q ≠ JsonMarshaler json payload) ∧
    (∀ q : P, JsonMarshaler json q = none ↔ (json.Marshal q).2 ≠ none) := by
  have hbytes : ∀ q : P, JsonMarshaler json q = (json.Marshal q).1 := fun _ => rfl
  have hnil : ∀ (q : P) (e : E), (json.Marshal q).2 = some e → JsonMarshaler json q = none := by
    intro q e he
    rw [hbytes]
    exact (hc q).1 (by rw [he]; exact Option.some_ne_none e)
  have hok : ∀ q : P, (json.Marshal q).2 = none → JsonMarshaler json q ≠ none := by
    intro q hq hn
    obtain ⟨b, bs, hb⟩ := (hc q).2 hq
    rw [hbytes, hb] at hn
    exact Option.some_ne_none _ hn
  refine ⟨rfl, hnil payload err hfail, ?_, ?_, ?_⟩
  · intro q e he
    rw [hnil q e he, hnil payload err hfail]
  · intro q hq
    rw [hnil payload err hfail]
    exact hok q hq
  · intro q
    constructor
    · intro hn hq
      exact hok q hq hn
    · intro hq
      cases he : (json.Marshal q).2 with
      | none => exact absurd he hq
      | some e => exact hnil q e he

/-- C4 (amended) on the sample values: the call on the channel fails, its
result is the nil slice, and the successful call on `nil` gives another
result. -/
theorem JsonMarshaler_failure_is_nil_slice_witness :
    JsonMarshaler sampleJson SampleValue.chanInt = none ∧
    JsonMarshaler sampleJson SampleValue.nilValue ≠ JsonMarshaler sampleJson SampleValue.chanInt :=
  have h := JsonMarshaler_failure_is_nil_slice sampleJson
    (by
      intro p
      cases p
      · exact ⟨fun _ => rfl, fun hq => absurd hq (by decide)⟩
      · exact ⟨fun _ => rfl, fun hq => absurd hq (by decide)⟩
      · exact ⟨fun hq => absurd rfl hq, fun _ => ⟨110, [117, 108, 108], rfl⟩⟩)
    SampleValue.chanInt "json: unsupported type: chan int" rfl
  ⟨h.2.1, h.2.2.2.1 SampleValue.nilValue rfl⟩

/-- C7: for the default Muldem of `NewMuldem`, `Demultiplex` of the message of
`Multiplex(address, payload)` hands the unmarshaler the nil slice, so the
result is that of `json.Unmarshal` on no bytes, the same for every address and
payload; as `json.Unmarshal` fails on no bytes, the payload is not
recovered. -/
theorem NewMuldem_round_trip_loses_payload {M P E : Type} [Inhabited M] (json : JsonPackage P E)
    (address : String) (payload : P) (err : E) (hnil : json.Unmarshal none = Except.error err) :
    (NewMuldem M json).Demultiplex ((NewMuldem M json).Multiplex address payload) = json.Unmarshal none ∧
    (∀ (address1 : String) (payload1 : P),
      (NewMuldem M json).Demultiplex ((NewMuldem M json).Multiplex address1 payload1) =
        (NewMuldem M json).Demultiplex ((NewMuldem M json).Multiplex address payload)) ∧
    (NewMuldem M json).Demultiplex ((NewMuldem M json).Multiplex address payload) = Except.error err ∧
    (NewMuldem M json).Demultiplex ((NewMuldem M json).Multiplex address payload) ≠ Except.ok payload := by
  have h : ∀ (a : String) (p : P),
      (NewMuldem M json).Demultiplex ((NewMuldem M json).Multiplex a p) = json.Unmarshal none :=
    fun _ _ => rfl
  refine ⟨h _ _, fun a p => (h a p).trans (h _ _).symm, (h _ _).trans hnil, ?_⟩
  rw [h, hnil]
  exact fun hc => nomatch hc

/-- C7 at the call of the spec: address `"dest"`, payload the map with the
one entry `k: v`, unit messages, and a JSON package whose `Unmarshal` fails on
no bytes. -/
theorem NewMuldem_round_trip_loses_payload_witness :
    (NewMuldem Unit
        ({ Marshal := fun _ => (some [123, 125], none),
           Unmarshal := fun b => if b = none then Except.error "unexpected end of JSON input" else Except.ok [] } :
          JsonPackage (List (String × String)) String)).Demultiplex
      ((NewMuldem Unit
        ({ Marshal := fun _ => (some [123, 125], none),
           Unmarshal := fun b => if b = none then Except.error "unexpected end of JSON input" else Except.ok [] } :
          JsonPackage (List (String × String)) String)).Multiplex "dest" [("k", "v")])
      = Except.error "unexpected end of JSON input" :=
  (NewMuldem_round_trip_loses_payload _ "dest" [("k", "v")] "unexpected end of JSON input" rfl).2.2.1

end std

namespace handywares

open http

/-- C8: for a stack onto which nothing has been pushed (nil), `NotNil()` is a
builder that returns every terminal handler `h` unchanged. -/
theorem NotNil_nil_passthrough {H : Type} (h : H) :
    NotNil (none : HttpMiddlewareStack H) h = h :=
  rfl

/-- C3: pushing the decorators `d1, ..., dn` in that order onto the nil stack
builds the chain `d1(d2(...dn(h)...))` for every terminal handler `h`; after at
least one push the stack itself is that builder. With decorators that first
act on the state and then delegate, pushing A, B, C runs A, then B, then C,
then the terminal handler. -/
theorem Push_first_is_outermost {H S : Type} (ds : List (Builder H)) (d : Builder H) (h : H)
    (a b c t : S → S) (s : S) :
    NotNil (ds.foldl Push none) h = ds.foldr (fun d inner => d inner) h ∧
    ((d :: ds).foldl Push none).map (fun chain => chain h) =
      some (d (ds.foldr (fun d inner => d inner) h)) ∧
    NotNil (Push (Push (Push none (fun next x => next (a x))) (fun next x => next (b x)))
      (fun next x => next (c x))) t s = t (c (b (a s))) := by
  refine ⟨NotNil_foldl_Push ds none h, ?_, rfl⟩
  rw [List.foldl_cons, foldl_Push_eq_some ds (Push none d) (by simp [Push]), Option.map_some',
    NotNil_foldl_Push, NotNil_Push]
  rfl

/-- C9 (counterexample): on the response of net/http's server, an inner
handler that writes status 200 and then panics leaves status 200 behind the
panic-recover decorator, not 500; an inner handler that panics with a nil
value before writing anything leaves a response without status line; and
with a nil response writer the panic of `rw.WriteHeader(500)` leaves the
decorated handler. -/
theorem PushPanicRecover_keeps_written_status :
    (NotNil (PushPanicRecover none)
        (fun (rw : Response) (_ : Unit) =>
          ((rw.WriteHeader StatusOK).1, Outcome.panicked (some "boom")))
        Response.fresh ()).1.status = 200 ∧
    (NotNil (PushPanicRecover none)
        (fun (rw : Response) (_ : Unit) =>
          ((rw.WriteHeader StatusOK).1, Outcome.panicked (some "boom")))
        Response.fresh ()).1.status ≠ StatusInternalServerError ∧
    (NotNil (PushPanicRecover none)
        (fun (rw : Response) (_ : Unit) => (rw, (Outcome.panicked none : Outcome String)))
        Response.fresh ()).1.wroteHeader = false ∧
    (NotNil (PushPanicRecover none)
        (fun (rw : Response) (_ : Unit) => (rw, (Outcome.panicked none : Outcome String)))
        Response.fresh ()).1.status ≠ StatusInternalServerError ∧
    (NotNil (PushPanicRecover none)
        (fun (rw : NilResponseWriter) (_ : Unit) => (rw, Outcome.panicked (some "boom")))
        NilResponseWriter.nil ()).2 =
      Outcome.panicked (some "runtime error: invalid memory address or nil pointer dereference") :=
  ⟨by decide, by decide, by decide, by decide, rfl⟩

/-- C9 (amended): on the response of net/http's server, for every inner
handler and every request, the handler built by `PushPanicRecover` returns
without a panic. When the inner handler panics with a value that is not nil,
the response is left as one call `WriteHeader(500)` leaves what the inner
handler had written: status 500 when no status line had been written (and the
connection was not hijacked), the response of the inner handler unchanged
when one had. When the inner handler panics with a nil value or returns, the
response is left as the inner handler left it. -/
theorem PushPanicRecover_contains_panic {Req : Type} (next : Handler Response Req String)
    (rw : Response) (req : Req) :
    (NotNil (PushPanicRecover none) next rw req).2 = Outcome.returned ∧
    (∀ v : String, (next rw req).2 = Outcome.panicked (some v) →
      (NotNil (PushPanicRecover none) next rw req).1 =
        ((next rw req).1.WriteHeader StatusInternalServerError).1 ∧
      ((next rw req).1.wroteHeader = false → (next rw req).1.hijacked = false →
        (NotNil (PushPanicRecover none) next rw req).1 =
          { (next rw req).1 with wroteHeader := true, status := StatusInternalServerError }) ∧
      ((next rw req).1.wroteHeader = true →
        (NotNil (PushPanicRecover none) next rw req).1 = (next rw req).1)) ∧
    ((next rw req).2 = Outcome.panicked none →
      (NotNil (PushPanicRecover none) next rw req).1 = (next rw req).1) ∧
    ((next rw req).2 = Outcome.returned →
      (NotNil (PushPanicRecover none) next rw req).1 = (next rw req).1) := by
  have key := NotNil_PushPanicRecover next rw req
  have h500 : ∀ w : Response, (w.WriteHeader StatusInternalServerError).2 = Outcome.returned :=
    Response.WriteHeader_500_returns
  refine ⟨?_, ?_, ?_, ?_⟩
  · rw [key]
    rcases hr : (next rw req).2 with _ | (_ | v)
    · rfl
    · rfl
    · exact h500 _
  · intro v hv
    rw [key, hv]
    refine ⟨rfl, ?_, ?_⟩
    · intro hw hh
      show ((next rw req).1.WriteHeader StatusInternalServerError).1 = _
      simp [Response.WriteHeader, hw, hh, StatusInternalServerError, StatusSwitchingProtocols]
    · intro hw
      show ((next rw req).1.WriteHeader StatusInternalServerError).1 = _
      simp [Response.WriteHeader, hw]
  · intro hv
    rw [key, hv]
  · intro hv
    rw [key, hv]

/-- C9 (amended) at a concrete call: a handler that panics at once, on the
fresh response of the server; the decorated handler returns and the status
is 500. -/
theorem PushPanicRecover_contains_panic_witness :
    (NotNil (PushPanicRecover none)
        (fun (rw : Response) (_ : Unit) => (rw, Outcome.panicked (some "boom")))
        Response.fresh ()).2 = Outcome.returned ∧
    (NotNil (PushPanicRecover none)
        (fun (rw : Response) (_ : Unit) => (rw, Outcome.panicked (some "boom")))
        Response.fresh ()).1 =
      { hijacked := false, wroteHeader := true, status := 500, body := [] } :=
  have h := PushPanicRecover_contains_panic
    (fun (rw : Response) (_ : Unit) => (rw, Outcome.panicked (some "boom"))) Response.fresh ()
  ⟨h.1, (h.2.1 "boom" rfl).2.1 rfl rfl⟩

/-- C10: each CORS option writes one field of the options it is applied to
and leaves the others as they were: `CorsAllowOrigins` writes `AllowedOrigins`,
`CorsAllowMethods` writes `AllowedMethods`, `CorsAllowHeaders` writes
`AllowedHeaders`, `CorsDebug` writes `Debug`. -/
theorem Cors_options_write_one_field {R : Type} (s : cors.Options R) (o m h : List String) (d : Bool) :
    ((CorsAllowOrigins o s).AllowedOrigins = o ∧
      (CorsAllowOrigins o s).AllowedMethods = s.AllowedMethods ∧
      (CorsAllowOrigins o s).AllowedHeaders = s.AllowedHeaders ∧
      (CorsAllowOrigins o s).Debug = s.Debug ∧ (CorsAllowOrigins o s).rest = s.rest) ∧
    ((CorsAllowMethods m s).AllowedOrigins = s.AllowedOrigins ∧
      (CorsAllowMethods m s).AllowedMethods = m ∧
      (CorsAllowMethods m s).AllowedHeaders = s.AllowedHeaders ∧
      (CorsAllowMethods m s).Debug = s.Debug ∧ (CorsAllowMethods m s).rest = s.rest) ∧
    ((CorsAllowHeaders h s).AllowedOrigins = s.AllowedOrigins ∧
      (CorsAllowHeaders h s).AllowedMethods = s.AllowedMethods ∧
      (CorsAllowHeaders h s).AllowedHeaders = h ∧
      (CorsAllowHeaders h s).Debug = s.Debug ∧ (CorsAllowHeaders h s).rest = s.rest) ∧
    ((CorsDebug d s).AllowedOrigins = s.AllowedOrigins ∧
      (CorsDebug d s).AllowedMethods = s.AllowedMethods ∧
      (CorsDebug d s).AllowedHeaders = s.AllowedHeaders ∧
      (CorsDebug d s).Debug = d ∧ (CorsDebug d s).rest = s.rest) :=
  ⟨⟨rfl, rfl, rfl, rfl, rfl⟩, ⟨rfl, rfl, rfl, rfl, rfl⟩, ⟨rfl, rfl, rfl, rfl, rfl⟩,
    ⟨rfl, rfl, rfl, rfl, rfl⟩⟩

end handywares
